/-
Verification of the AnimePixels media-gallery backend.

Shallow embedding of the TypeScript sources:
  * `src/lib/auth.ts`  (part_001 top)  : JWT admin middleware, category validator
  * `src/lib/db.ts`    (part_001 rest) : relational persistence (external)
  * `src/index.ts`     (part_002 top)  : app wiring
  * `src/routes/media.ts` (part_002)   : public read API
  * `src/api/routes/admin.ts`          : admin API and bulk upload

The relational table is modelled as a `List MediaRow`; SQL filtering,
ordering, LIMIT/OFFSET and LIKE patterns are modelled by list operations;
JavaScript primitives (`parseInt`, `||` defaulting, `trim`,
`toLowerCase`, `/\s+/g` replacement) are modelled explicitly.
External services (Cloudinary, the database insert) are modelled as
oracles supplied per request.
-/
import Mathlib

/-! ## JavaScript primitive models -/

/-- Whitespace as matched by JavaScript `\s` / skipped by `parseInt` and
`trim` (ASCII part; exotic Unicode space code points are not used by the
repository's inputs). -/
def jsIsSpace (c : Char) : Bool :=
  c = ' ' || c = '\t' || c = '\n' || c = '\r' || c = '\x0b' || c = '\x0c'

/-- Value of a list of decimal digit characters. -/
def digitsVal (ds : List Char) : Nat :=
  ds.foldl (fun acc c => acc * 10 + (c.toNat - '0'.toNat)) 0

/-- Value of a list of hexadecimal digit characters. -/
def hexVal (ds : List Char) : Nat :=
  ds.foldl (fun acc c =>
    acc * 16 +
      (if c.isDigit then c.toNat - '0'.toNat
       else if 'a' ≤ c ∧ c ≤ 'f' then c.toNat - 'a'.toNat + 10
       else c.toNat - 'A'.toNat + 10)) 0

def isHexDigit (c : Char) : Bool :=
  c.isDigit || ('a' ≤ c && c ≤ 'f') || ('A' ≤ c && c ≤ 'F')

/-- Leading digit-run parse (`none` models `NaN`). -/
def parseDigitRun (cs : List Char) : Option Nat :=
  let ds := cs.takeWhile Char.isDigit
  if ds.isEmpty then none else some (digitsVal ds)

/-- Unsigned part of JavaScript `parseInt` (radix auto-detection:
a `0x`/`0X` prefix switches to hexadecimal). -/
def parseIntUnsigned (cs : List Char) : Option Nat :=
  match cs with
  | '0' :: 'x' :: rest =>
      let ds := rest.takeWhile isHexDigit
      if ds.isEmpty then none else some (hexVal ds)
  | '0' :: 'X' :: rest =>
      let ds := rest.takeWhile isHexDigit
      if ds.isEmpty then none else some (hexVal ds)
  | _ => parseDigitRun cs

/-- JavaScript `parseInt(str)`: skip leading whitespace, optional sign,
parse a leading digit run; `none` models `NaN`. -/
def jsParseIntChars (cs : List Char) : Option Int :=
  let cs := cs.dropWhile jsIsSpace
  match cs with
  | '-' :: rest => (parseIntUnsigned rest).map (fun n => -(n : Int))
  | '+' :: rest => (parseIntUnsigned rest).map (fun n => (n : Int))
  | _ => (parseIntUnsigned cs).map (fun n => (n : Int))

/-- `parseInt` applied to a possibly-absent query parameter
(`parseInt(undefined)` is `NaN`). -/
def jsParseInt (s : Option String) : Option Int :=
  match s with
  | none => none
  | some str => jsParseIntChars str.data

/-- JavaScript `x || d` for a number `x`: `NaN` and `0` are falsy. -/
def jsOrDefault (x : Option Int) (d : Int) : Int :=
  match x with
  | none => d
  | some v => if v = 0 then d else v

/-- JavaScript `String.prototype.trim`. -/
def jsTrim (s : String) : String :=
  String.mk ((((s.data.dropWhile jsIsSpace).reverse).dropWhile jsIsSpace).reverse)

/-- JavaScript `String.prototype.toLowerCase` (ASCII case mapping). -/
def jsToLower (s : String) : String :=
  String.mk (s.data.map Char.toLower)

/-! ## Category validator (`src/lib/auth.ts`) -/

/-- `ALLOWED_CATEGORIES` from `src/lib/auth.ts`. -/
def allowedCategories : List String :=
  [ "naruto", "one_piece", "demon_slayer", "jujutsu_kaisen",
    "attack_on_titan", "dragon_ball", "my_hero_academia", "pokemon",
    "spy_x_family", "solo_leveling", "nature", "popular_anime" ]

/-- `.replace(/\s+/g, '_')`, one character at a time: the flag records
whether the previous character was part of a whitespace run (in which
case further whitespace extends the run instead of emitting another
underscore). -/
def replaceWsAux : Bool → List Char → List Char
  | _, [] => []
  | prevWs, c :: rest =>
      if jsIsSpace c then
        if prevWs then replaceWsAux true rest
        else '_' :: replaceWsAux true rest
      else c :: replaceWsAux false rest

/-- `.replace(/\s+/g, '_')`: each maximal run of whitespace becomes a
single underscore. -/
def replaceWsRuns (cs : List Char) : List Char :=
  replaceWsAux false cs

/-- `category.toLowerCase().replace(/\s+/g, '_')`. -/
def normalizeCategory (category : String) : String :=
  String.mk (replaceWsRuns (jsToLower category).data)

/-- `validateCategory` from `src/lib/auth.ts`; the thrown `Error` is
modelled as `Except.error`. -/
def validateCategory (category : String) : Except String String :=
  let normalized := normalizeCategory category
  if allowedCategories.contains normalized then Except.ok normalized
  else Except.error ("Invalid category: " ++ category)

/-! ## Pagination helpers (`src/routes/media.ts`) -/

def DEFAULT_LIMIT : Int := 50
def MAX_LIMIT : Int := 200
def SEARCH_LIMIT : Int := 100

/-- `getLimit`: `parseInt(limitParam) || DEFAULT_LIMIT`, then
`Math.min(Math.max(1, limit), MAX_LIMIT)`. -/
def getLimit (limitParam : Option String) : Int :=
  let limit := jsOrDefault (jsParseInt limitParam) DEFAULT_LIMIT
  min (max 1 limit) MAX_LIMIT

/-- `getOffset`: `parseInt(offsetParam) || 0`, then `Math.max(0, offset)`. -/
def getOffset (offsetParam : Option String) : Int :=
  let offset := jsOrDefault (jsParseInt offsetParam) 0
  max 0 offset

/-! ## Authentication middleware (`src/lib/auth.ts`) -/

/-- Decoded JWT claims relevant to the middleware. -/
structure JwtPayload where
  sub : String
  is_admin : Bool
deriving DecidableEq, Repr

/-- Outcome of `jwt.verify`: the library throws `TokenExpiredError` on an
expired token, some other error on a bad signature/malformed token, and
returns the decoded payload otherwise. -/
inductive JwtVerifyResult where
  | expired
  | invalid
  | valid (payload : JwtPayload)
deriving DecidableEq, Repr

/-- What the middleware does with the request: respond with an error
status, or attach the decoded claims and call `next()`. -/
inductive AuthOutcome where
  | reject (status : Nat) (error : String)
  | allow (payload : JwtPayload)
deriving DecidableEq, Repr

/-- `authenticateAdmin` from `src/lib/auth.ts`.  `verify` is the oracle
for `jwt.verify(token, JWT_SECRET)`; `authHeader` is
`req.headers.authorization`. -/
def authenticateAdmin (verify : String → JwtVerifyResult)
    (authHeader : Option String) : AuthOutcome :=
  match authHeader with
  | none => AuthOutcome.reject 401 "Missing or invalid authorization header"
  | some h =>
      if "Bearer ".data.isPrefixOf h.data then
        match verify (String.mk (h.data.drop 7)) with
        | JwtVerifyResult.expired => AuthOutcome.reject 401 "Token expired"
        | JwtVerifyResult.invalid => AuthOutcome.reject 401 "Invalid token"
        | JwtVerifyResult.valid p =>
            if p.is_admin then AuthOutcome.allow p
            else AuthOutcome.reject 403 "Insufficient permissions"
      else AuthOutcome.reject 401 "Missing or invalid authorization header"

/-! ## Media table model -/

/-- One row of the `media` table (`created_at` as an abstract tick). -/
structure MediaRow where
  id : Nat
  title : String
  category : String
  url : String
  media_type : String
  views : Nat
  visible : Bool
  created_at : Nat
deriving DecidableEq, Repr

/-- `WHERE media_type = $mt AND visible = true`. -/
def visibleOfType (mt : String) (table : List MediaRow) : List MediaRow :=
  table.filter (fun r => r.media_type = mt && r.visible)

/-- `ORDER BY created_at DESC` (ties resolved stably, as a model of the
database's unspecified tie order). -/
def createdDesc (a b : MediaRow) : Prop := b.created_at ≤ a.created_at

instance : DecidableRel createdDesc := fun a b => by
  unfold createdDesc; infer_instance

/-- `ORDER BY views DESC`. -/
def viewsDesc (a b : MediaRow) : Prop := b.views ≤ a.views

instance : DecidableRel viewsDesc := fun a b => by
  unfold viewsDesc; infer_instance

/-- Shape shared by the paginated JSON responses (`status` is the HTTP
status; the 404 branches carry `total: 0, returned: 0, results: []`). -/
structure PageResponse where
  status : Nat
  total : Nat
  returned : Nat
  limit : Int
  offset : Int
  results : List MediaRow
deriving DecidableEq, Repr

/-! ## List-by-type endpoints (`/all-images`, `/all-gifs`) -/

/-- Common body of `router.get('/all-images')` and
`router.get('/all-gifs')` in `src/routes/media.ts`: page query with
`LIMIT`/`OFFSET` over `created_at DESC`, separate `COUNT(*)` query,
404 with an empty payload when the page is empty. -/
def listByType (table : List MediaRow) (mt : String)
    (limitParam offsetParam : Option String) : PageResponse :=
  let limit := getLimit limitParam
  let offset := getOffset offsetParam
  let sorted := List.insertionSort createdDesc (visibleOfType mt table)
  let rows := (sorted.drop offset.toNat).take limit.toNat
  let total := (visibleOfType mt table).length
  if rows.length = 0 then
    { status := 404, total := 0, returned := 0, limit := limit,
      offset := offset, results := [] }
  else
    { status := 200, total := total, returned := rows.length,
      limit := limit, offset := offset, results := rows }

/-- `GET /api/media/all-images`. -/
def allImages (table : List MediaRow) (limitParam offsetParam : Option String) :
    PageResponse :=
  listByType table "image" limitParam offsetParam

/-- `GET /api/media/all-gifs`. -/
def allGifs (table : List MediaRow) (limitParam offsetParam : Option String) :
    PageResponse :=
  listByType table "gif" limitParam offsetParam

/-! ## By-category endpoints (`/image/:category`, `/gif/:category`) -/

/-- `WHERE category = $1 AND media_type = $mt AND visible = true`. -/
def visibleOfTypeInCategory (mt cat : String) (table : List MediaRow) :
    List MediaRow :=
  table.filter (fun r => r.category = cat && r.media_type = mt && r.visible)

/-- Common body of `router.get('/image/:category')` and
`router.get('/gif/:category')`: category validation (400 on failure),
then the same pagination flow as list-by-type. -/
def byCategory (table : List MediaRow) (mt : String) (categoryParam : String)
    (limitParam offsetParam : Option String) : PageResponse :=
  match validateCategory categoryParam with
  | Except.error _ =>
      { status := 400, total := 0, returned := 0, limit := 0, offset := 0,
        results := [] }
  | Except.ok category =>
      let limit := getLimit limitParam
      let offset := getOffset offsetParam
      let sorted :=
        List.insertionSort createdDesc (visibleOfTypeInCategory mt category table)
      let rows := (sorted.drop offset.toNat).take limit.toNat
      let total := (visibleOfTypeInCategory mt category table).length
      if rows.length = 0 then
        { status := 404, total := 0, returned := 0, limit := limit,
          offset := offset, results := [] }
      else
        { status := 200, total := total, returned := rows.length,
          limit := limit, offset := offset, results := rows }

/-- `GET /api/media/image/:category`. -/
def imagesByCategory (table : List MediaRow) (categoryParam : String)
    (limitParam offsetParam : Option String) : PageResponse :=
  byCategory table "image" categoryParam limitParam offsetParam

/-- `GET /api/media/gif/:category`. -/
def gifsByCategory (table : List MediaRow) (categoryParam : String)
    (limitParam offsetParam : Option String) : PageResponse :=
  byCategory table "gif" categoryParam limitParam offsetParam

/-! ## Search endpoints (`/search/image`, `/search/gif`) -/

/-- `validateSearchQuery` from `src/routes/media.ts` (`req.query.q` may be
absent, which fails the `!searchQuery` check). -/
def validateSearchQuery (searchQuery : Option String) : Except String String :=
  match searchQuery with
  | none => Except.error "Search query is required"
  | some s =>
      let trimmed := jsTrim s
      if trimmed.data.length = 0 then Except.error "Search query cannot be empty"
      else if 255 < trimmed.data.length then
        Except.error "Search query too long (max 255 characters)"
      else Except.ok trimmed

/-- SQL `LIKE` pattern matching with `%` (any sequence) and `_`
(any one character) wildcards.  Every recursive call strictly shrinks
`p.length + s.length`, so the fuel argument (instantiated below with
`p.length + s.length + 1`) never runs out; it only makes the recursion
structural. -/
def likeMatchFuel : Nat → List Char → List Char → Bool
  | 0, _, _ => false
  | _ + 1, [], [] => true
  | _ + 1, [], _ :: _ => false
  | fuel + 1, '%' :: ps, s =>
      likeMatchFuel fuel ps s ||
        (match s with
         | [] => false
         | _ :: rest => likeMatchFuel fuel ('%' :: ps) rest)
  | _ + 1, '_' :: _, [] => false
  | fuel + 1, '_' :: ps, _ :: rest => likeMatchFuel fuel ps rest
  | _ + 1, _ :: _, [] => false
  | fuel + 1, c :: ps, d :: rest => c = d && likeMatchFuel fuel ps rest

/-- SQL `LIKE` on character lists. -/
def likeMatch (p s : List Char) : Bool :=
  likeMatchFuel (p.length + s.length + 1) p s

/-- The pattern string built by the handlers: a `%` on each side of the
lowercased query. -/
def searchPattern (q : String) : List Char :=
  '%' :: (jsToLower q).data ++ ['%']

/-- `WHERE visible = true AND media_type = $mt AND (LOWER(title) LIKE $1
OR LOWER(category) LIKE $1)`. -/
def searchMatches (table : List MediaRow) (mt : String) (q : String) :
    List MediaRow :=
  table.filter (fun r =>
    r.visible && r.media_type = mt &&
      (likeMatch (searchPattern q) (jsToLower r.title).data ||
       likeMatch (searchPattern q) (jsToLower r.category).data))

/-- Common body of `router.get('/search/image')` and
`router.get('/search/gif')`: validated query (400 on failure), page of
matches ordered by `views DESC` with `LIMIT Math.min(limit, SEARCH_LIMIT)`,
404 with `total: 0` when the page is empty, else 200 carrying the
separately counted total. -/
def searchByType (table : List MediaRow) (mt : String)
    (qParam limitParam offsetParam : Option String) : PageResponse :=
  match validateSearchQuery qParam with
  | Except.error _ =>
      { status := 400, total := 0, returned := 0, limit := 0, offset := 0,
        results := [] }
  | Except.ok q =>
      let limit := getLimit limitParam
      let offset := getOffset offsetParam
      let matching := searchMatches table mt q
      let sorted := List.insertionSort viewsDesc matching
      let rows := (sorted.drop offset.toNat).take (min limit SEARCH_LIMIT).toNat
      if rows.length = 0 then
        { status := 404, total := 0, returned := 0,
          limit := min limit SEARCH_LIMIT, offset := offset, results := [] }
      else
        { status := 200, total := matching.length, returned := rows.length,
          limit := min limit SEARCH_LIMIT, offset := offset, results := rows }

/-- `GET /api/media/search/image`. -/
def searchImages (table : List MediaRow)
    (qParam limitParam offsetParam : Option String) : PageResponse :=
  searchByType table "image" qParam limitParam offsetParam

/-- `GET /api/media/search/gif`. -/
def searchGifs (table : List MediaRow)
    (qParam limitParam offsetParam : Option String) : PageResponse :=
  searchByType table "gif" qParam limitParam offsetParam

/-! ## Random endpoints -/

/-- `ORDER BY RANDOM() LIMIT 1` over a filtered row set: the database
picks one of the matching rows; `pick` is the randomness oracle. -/
def randomPick (rows : List MediaRow) (pick : Nat) : Option MediaRow :=
  if rows.length = 0 then none else rows.get? (pick % rows.length)

/-- Status-plus-body result of a single-record endpoint. -/
structure SingleResponse where
  status : Nat
  result : Option MediaRow
deriving DecidableEq, Repr

/-- `GET /api/media/random`: any visible row. -/
def randomAny (table : List MediaRow) (pick : Nat) : SingleResponse :=
  match randomPick (table.filter (fun r => r.visible)) pick with
  | none => { status := 404, result := none }
  | some r => { status := 200, result := some r }

/-- Common body of `router.get('/random/image')` and
`router.get('/random/gif')`. -/
def randomByType (table : List MediaRow) (mt : String) (pick : Nat) :
    SingleResponse :=
  match randomPick (visibleOfType mt table) pick with
  | none => { status := 404, result := none }
  | some r => { status := 200, result := some r }

/-- `GET /api/media/random/image`. -/
def randomImage (table : List MediaRow) (pick : Nat) : SingleResponse :=
  randomByType table "image" pick

/-- `GET /api/media/random/gif`. -/
def randomGif (table : List MediaRow) (pick : Nat) : SingleResponse :=
  randomByType table "gif" pick

/-- Common body of `router.get('/random/image/:category')` and
`router.get('/random/gif/:category')`: category validation (400 on
failure), then a random visible row of the type in the category. -/
def randomByTypeInCategory (table : List MediaRow) (mt : String)
    (categoryParam : String) (pick : Nat) : SingleResponse :=
  match validateCategory categoryParam with
  | Except.error _ => { status := 400, result := none }
  | Except.ok category =>
      match randomPick (visibleOfTypeInCategory mt category table) pick with
      | none => { status := 404, result := none }
      | some r => { status := 200, result := some r }

/-- `GET /api/media/random/image/:category`. -/
def randomImageByCategory (table : List MediaRow) (categoryParam : String)
    (pick : Nat) : SingleResponse :=
  randomByTypeInCategory table "image" categoryParam pick

/-- `GET /api/media/random/gif/:category`. -/
def randomGifByCategory (table : List MediaRow) (categoryParam : String)
    (pick : Nat) : SingleResponse :=
  randomByTypeInCategory table "gif" categoryParam pick

/-! ## By-id endpoints (`/image/id/:media_id`, `/gif/id/:media_id`) -/

/-- Common body of `router.get('/image/id/:media_id')` and
`router.get('/gif/id/:media_id')`: `parseInt` the path parameter, 400 if
`NaN` or `< 1`, then fetch the single visible row of the type with that
id (`id` is the primary key), 404 if absent.  The fire-and-forget view
increment does not affect the response and is not modelled here. -/
def byIdEndpoint (table : List MediaRow) (mt : String) (mediaIdParam : String) :
    SingleResponse :=
  match jsParseIntChars mediaIdParam.data with
  | none => { status := 400, result := none }
  | some mediaId =>
      if mediaId < 1 then { status := 400, result := none }
      else
        match table.find? (fun r =>
            (r.id : Int) = mediaId && r.visible && r.media_type = mt) with
        | none => { status := 404, result := none }
        | some r => { status := 200, result := some r }

/-- `GET /api/media/image/id/:media_id`. -/
def imageById (table : List MediaRow) (mediaIdParam : String) : SingleResponse :=
  byIdEndpoint table "image" mediaIdParam

/-- `GET /api/media/gif/id/:media_id`. -/
def gifById (table : List MediaRow) (mediaIdParam : String) : SingleResponse :=
  byIdEndpoint table "gif" mediaIdParam

/-! ## Bulk upload (`src/api/routes/admin.ts`) -/

/-- The multer file object fields the handler reads. -/
structure UploadFile where
  originalname : String
deriving DecidableEq, Repr

/-- `MediaRecord` interface of `admin.ts` (the columns listed by the
`RETURNING` clause). -/
structure MediaRecord where
  id : Nat
  title : String
  category : String
  url : String
  media_type : String
  views : Nat
  visible : Bool
deriving DecidableEq, Repr

/-- `UploadedMediaItem` interface of `admin.ts`. -/
structure UploadedMediaItem where
  filename : String
  title : String
  category : String
  media : MediaRecord
deriving DecidableEq, Repr

/-- `UploadError` interface of `admin.ts`. -/
structure UploadError where
  filename : String
  index : Nat
  error : String
deriving DecidableEq, Repr

/-- `BulkUploadResponse` of `admin.ts` plus the HTTP status used to send
it. -/
structure BulkUploadResponse where
  status : Nat
  success : Nat
  failed : Nat
  uploaded_media : List UploadedMediaItem
  errors : List UploadError
deriving DecidableEq, Repr

/-- Oracle for the two external services used per file: the Cloudinary
upload (`error` = upload/stream failure message, `ok none` = result
without `secure_url`, `ok (some url)` = success) and the database
`INSERT ... RETURNING` (`error` = insert failure message, `ok id` = the
serial id assigned to the new row). -/
structure BulkEnv where
  cdn : Nat → Except String (Option String)
  dbInsert : Nat → Except String Nat

/-- The row produced by
`INSERT INTO media (title, category, url, media_type, visible, views)
VALUES ($1,$2,$3,$4,$5,$6) RETURNING ...` with parameters
`[title, category, secureUrl, media_type, true, 0]`: `visible` and
`views` are set explicitly in the statement, not left to column
defaults. -/
def insertedMediaRecord (newId : Nat) (title category secureUrl mt : String) :
    MediaRecord :=
  { id := newId, title := title, category := category, url := secureUrl,
    media_type := mt, views := 0, visible := true }

/-- Body of the per-file `try` block of the bulk-upload loop: trim the
title (must be non-empty), validate the category, upload to Cloudinary,
require `secure_url`, insert the metadata row.  Any failure becomes the
`UploadError` pushed by the `catch` block. -/
def processFile (env : BulkEnv) (mt : String) (idx : Nat) (f : UploadFile)
    (rawTitle rawCategory : String) : Except UploadError UploadedMediaItem :=
  let title := jsTrim rawTitle
  if title.data.length = 0 then
    Except.error { filename := f.originalname, index := idx,
                   error := "Title cannot be empty" }
  else
    match validateCategory (jsTrim rawCategory) with
    | Except.error msg =>
        Except.error { filename := f.originalname, index := idx, error := msg }
    | Except.ok category =>
        match env.cdn idx with
        | Except.error msg =>
            Except.error { filename := f.originalname, index := idx,
                           error := msg }
        | Except.ok none =>
            Except.error { filename := f.originalname, index := idx,
                           error := "Cloudinary did not return secure_url" }
        | Except.ok (some secureUrl) =>
            match env.dbInsert idx with
            | Except.error msg =>
                Except.error { filename := f.originalname, index := idx,
                               error := msg }
            | Except.ok newId =>
                Except.ok { filename := f.originalname, title := title,
                            category := category,
                            media := insertedMediaRecord newId title category
                              secureUrl mt }

/-- Accumulated loop state (`uploadedMedia`, `errors`, `successCount`,
`failedCount`). -/
structure BulkState where
  uploaded : List UploadedMediaItem
  errors : List UploadError
  successCount : Nat
  failedCount : Nat
deriving DecidableEq, Repr

/-- The sequential `for (let idx = 0; ...)` loop: one `processFile` per
file; a failure only appends to `errors` and the loop continues. -/
def bulkLoop (env : BulkEnv) (mt : String) :
    Nat → List UploadFile → List String → List String → BulkState
  | _, [], _, _ =>
      { uploaded := [], errors := [], successCount := 0, failedCount := 0 }
  | idx, f :: fs, titles, categories =>
      let rest := bulkLoop env mt (idx + 1) fs titles.tail categories.tail
      match processFile env mt idx f (titles.headD "") (categories.headD "") with
      | Except.ok item =>
          { uploaded := item :: rest.uploaded, errors := rest.errors,
            successCount := rest.successCount + 1,
            failedCount := rest.failedCount }
      | Except.error e =>
          { uploaded := rest.uploaded, errors := e :: rest.errors,
            successCount := rest.successCount,
            failedCount := rest.failedCount + 1 }

/-- `titles.length === 1 && files.length > 1` replication: 1-based index
appended to the single title. -/
def replicateTitles (titles : List String) (fileCount : Nat) : List String :=
  if titles.length = 1 ∧ 1 < fileCount then
    (List.range fileCount).map (fun idx =>
      (titles.headD "") ++ " " ++ toString (idx + 1))
  else titles

/-- `categories.length === 1 && files.length > 1` replication:
`Array(files.length).fill(singleCategory)`. -/
def replicateCategories (categories : List String) (fileCount : Nat) :
    List String :=
  if categories.length = 1 ∧ 1 < fileCount then
    List.replicate fileCount (categories.headD "")
  else categories

/-- `POST /api/admin/bulk-upload` after auth and multer: Cloudinary
configuration check (500), normalization/replication of `titles` and
`categories`, the three 400 validations, then the loop and the final
`res.json` (status 200).  `titles` and `categories` are the outputs of
`normalizeArrayField` on the body fields. -/
def bulkUpload (env : BulkEnv) (cloudinaryConfigured : Bool)
    (files : List UploadFile) (titles0 categories0 : List String)
    (media_type : Option String) : BulkUploadResponse :=
  if cloudinaryConfigured = false then
    { status := 500, success := 0, failed := 0, uploaded_media := [],
      errors := [] }
  else if files.length = 0 then
    { status := 400, success := 0, failed := 0, uploaded_media := [],
      errors := [] }
  else
    let titles := replicateTitles titles0 files.length
    let categories := replicateCategories categories0 files.length
    if titles.length ≠ files.length then
      { status := 400, success := 0, failed := 0, uploaded_media := [],
        errors := [] }
    else if categories.length ≠ files.length then
      { status := 400, success := 0, failed := 0, uploaded_media := [],
        errors := [] }
    else if media_type ≠ some "image" ∧ media_type ≠ some "gif" then
      { status := 400, success := 0, failed := 0, uploaded_media := [],
        errors := [] }
    else
      let mt := media_type.getD ""
      let final := bulkLoop env mt 0 files titles categories
      { status := 200, success := final.successCount,
        failed := final.failedCount, uploaded_media := final.uploaded,
        errors := final.errors }

/-! ## Auxiliary definitions for the statements -/

deriving instance DecidableEq for Except

/-- `Except.ok` projection. -/
def exceptOkPart {ε α : Type} : Except ε α → Option α
  | Except.ok a => some a
  | Except.error _ => none

/-- `Except.error` projection. -/
def exceptErrPart {ε α : Type} : Except ε α → Option ε
  | Except.ok _ => none
  | Except.error e => some e

/-- Modelled from the spec's words "validates id is a positive integer":
the path parameter is a non-empty string of decimal digits whose value is
at least 1.  This is the specification-side notion, to be compared with
what the code's `parseInt`-based check accepts. -/
def specPosIntLiteral (s : String) : Bool :=
  (!s.data.isEmpty) && s.data.all Char.isDigit && 1 ≤ digitsVal s.data

/-- Two visible image rows used as concrete witnesses/counterexamples. -/
def sampleRow1 : MediaRow :=
  { id := 1, title := "t1", category := "naruto", url := "u1",
    media_type := "image", views := 0, visible := true, created_at := 1 }

def sampleRow2 : MediaRow :=
  { id := 2, title := "t2", category := "naruto", url := "u2",
    media_type := "image", views := 3, visible := true, created_at := 2 }

def sampleTable : List MediaRow := [sampleRow1, sampleRow2]

/-- A concrete external-service oracle: the Cloudinary upload of the file
at batch index 1 fails, every other upload succeeds, and every database
insert succeeds with serial ids. -/
def sampleEnv : BulkEnv :=
  { cdn := fun idx => if idx = 1 then Except.error "CDN down"
                      else Except.ok (some "https://cdn.example/x.png"),
    dbInsert := fun idx => Except.ok (idx + 1) }

def sampleFiles : List UploadFile := [⟨"a.png"⟩, ⟨"b.png"⟩, ⟨"c.png"⟩]

/-- A visible GIF row, for exercising the gif-typed endpoints. -/
def sampleGifRow : MediaRow :=
  { id := 3, title := "g1", category := "naruto", url := "u3",
    media_type := "gif", views := 1, visible := true, created_at := 3 }

/-! ## Theorems -/

/-- C2: For every value of the limit query parameter, the effective limit
used by paginated endpoints lies in [1,200], with 50 used when the
parameter is absent; for every value of the offset parameter, the
effective offset is at least 0, with 0 used when absent. -/
theorem limit_offset_clamped :
    (∀ limitParam : Option String,
        1 ≤ getLimit limitParam ∧ getLimit limitParam ≤ 200) ∧
    getLimit none = 50 ∧
    (∀ offsetParam : Option String, 0 ≤ getOffset offsetParam) ∧
    getOffset none = 0 := by
  refine ⟨fun lp => ?_, by decide, fun op => ?_, by decide⟩
  · simp only [getLimit, MAX_LIMIT]
    omega
  · simp only [getOffset]
    omega

/-- C5: the category validator is idempotent: whenever validation
succeeds, validating its output succeeds with the same value; and every
input that normalizes to an allowed canonical value validates to exactly
that canonical value (so all mixed-case/whitespace variants of an allowed
category agree with the canonical form). -/
theorem category_validator_idempotent :
    (∀ x y : String, validateCategory x = Except.ok y →
        validateCategory y = Except.ok y) ∧
    (∀ v c : String, c ∈ allowedCategories → normalizeCategory v = c →
        validateCategory v = Except.ok c ∧
          validateCategory c = Except.ok c) := by
  constructor
  · intro x y hxy
    simp only [validateCategory] at hxy
    generalize hz : normalizeCategory x = z at hxy
    split at hxy
    · next hc =>
        cases hxy
        have hy : y ∈ allowedCategories := List.mem_of_elem_eq_true hc
        fin_cases hy <;> decide
    · cases hxy
  · intro v c hc hn
    constructor
    · simp only [validateCategory, hn]
      fin_cases hc <;> rw [if_pos (by decide)]
    · fin_cases hc <;> decide

/-- Witness for C5: a mixed-case input and a whitespace variant both
normalize and validate to the canonical value, and re-validating the
output returns it unchanged. -/
theorem category_validator_idempotent_witness :
    validateCategory "NARUTO" = Except.ok "naruto" ∧
    validateCategory "naruto" = Except.ok "naruto" ∧
    "one_piece" ∈ allowedCategories ∧
    normalizeCategory "One  Piece" = "one_piece" ∧
    validateCategory "One  Piece" = Except.ok "one_piece" ∧
    validateCategory "one_piece" = Except.ok "one_piece" := by
  refine ⟨by decide,
          category_validator_idempotent.1 "NARUTO" "naruto" (by decide),
          by decide, by decide, ?_, ?_⟩
  · exact (category_validator_idempotent.2 "One  Piece" "one_piece"
      (by decide) (by decide)).1
  · exact (category_validator_idempotent.2 "One  Piece" "one_piece"
      (by decide) (by decide)).2

/-- C6: the admin middleware rejects with 401 when the Authorization
header is missing or does not carry a bearer token, 401 when the token is
expired or otherwise invalid (bad signature), 403 when the decoded claims
lack the administrator flag, and otherwise attaches the decoded claims
and lets the handler run. -/
theorem admin_auth_middleware_cases
    (verify : String → JwtVerifyResult) (h : String) (p : JwtPayload) :
    authenticateAdmin verify none =
      AuthOutcome.reject 401 "Missing or invalid authorization header" ∧
    ("Bearer ".data.isPrefixOf h.data = false →
      authenticateAdmin verify (some h) =
        AuthOutcome.reject 401 "Missing or invalid authorization header") ∧
    ("Bearer ".data.isPrefixOf h.data = true →
      (verify (String.mk (h.data.drop 7)) = JwtVerifyResult.expired →
        authenticateAdmin verify (some h) =
          AuthOutcome.reject 401 "Token expired") ∧
      (verify (String.mk (h.data.drop 7)) = JwtVerifyResult.invalid →
        authenticateAdmin verify (some h) =
          AuthOutcome.reject 401 "Invalid token") ∧
      (verify (String.mk (h.data.drop 7)) = JwtVerifyResult.valid p →
        p.is_admin = false →
        authenticateAdmin verify (some h) =
          AuthOutcome.reject 403 "Insufficient permissions") ∧
      (verify (String.mk (h.data.drop 7)) = JwtVerifyResult.valid p →
        p.is_admin = true →
        authenticateAdmin verify (some h) = AuthOutcome.allow p)) := by
  refine ⟨rfl, fun hb => ?_, fun hb => ⟨fun hv => ?_, fun hv => ?_,
    fun hv ha => ?_, fun hv ha => ?_⟩⟩
  · simp [authenticateAdmin, hb]
  · simp [authenticateAdmin, hb, hv]
  · simp [authenticateAdmin, hb, hv]
  · simp [authenticateAdmin, hb, hv, ha]
  · simp [authenticateAdmin, hb, hv, ha]

/-- Witness for C6: each middleware branch exercised at a concrete
verifier and concrete headers. -/
theorem admin_auth_middleware_cases_witness :
    (authenticateAdmin (fun _ => JwtVerifyResult.invalid) none =
      AuthOutcome.reject 401 "Missing or invalid authorization header") ∧
    (authenticateAdmin (fun _ => JwtVerifyResult.invalid) (some "Token abc") =
      AuthOutcome.reject 401 "Missing or invalid authorization header") ∧
    (authenticateAdmin (fun _ => JwtVerifyResult.expired) (some "Bearer abc") =
      AuthOutcome.reject 401 "Token expired") ∧
    (authenticateAdmin (fun _ => JwtVerifyResult.invalid) (some "Bearer abc") =
      AuthOutcome.reject 401 "Invalid token") ∧
    (authenticateAdmin
        (fun _ => JwtVerifyResult.valid { sub := "u", is_admin := false })
        (some "Bearer abc") =
      AuthOutcome.reject 403 "Insufficient permissions") ∧
    (authenticateAdmin
        (fun _ => JwtVerifyResult.valid { sub := "admin", is_admin := true })
        (some "Bearer abc") =
      AuthOutcome.allow { sub := "admin", is_admin := true }) := by
  refine ⟨(admin_auth_middleware_cases (fun _ => JwtVerifyResult.invalid)
      "x" { sub := "u", is_admin := false }).1,
    (admin_auth_middleware_cases (fun _ => JwtVerifyResult.invalid)
      "Token abc" { sub := "u", is_admin := false }).2.1 (by decide),
    ((admin_auth_middleware_cases (fun _ => JwtVerifyResult.expired)
      "Bearer abc" { sub := "u", is_admin := false }).2.2 (by decide)).1
      (by rfl),
    ((admin_auth_middleware_cases (fun _ => JwtVerifyResult.invalid)
      "Bearer abc" { sub := "u", is_admin := false }).2.2 (by decide)).2.1
      (by rfl),
    ((admin_auth_middleware_cases
      (fun _ => JwtVerifyResult.valid { sub := "u", is_admin := false })
      "Bearer abc" { sub := "u", is_admin := false }).2.2 (by decide)).2.2.1
      (by rfl) (by rfl),
    ((admin_auth_middleware_cases
      (fun _ => JwtVerifyResult.valid { sub := "admin", is_admin := true })
      "Bearer abc" { sub := "admin", is_admin := true }).2.2 (by decide)).2.2.2
      (by rfl) (by rfl)⟩

/-- Rows selected by `ORDER BY RANDOM() LIMIT 1` come from the filtered
row set. -/
theorem randomPick_mem {rows : List MediaRow} {pick : Nat} {r : MediaRow}
    (h : randomPick rows pick = some r) : r ∈ rows := by
  unfold randomPick at h
  split at h
  · cases h
  · exact List.get?_mem h

/-- C9: every record returned by a random endpoint is visible, and the
typed random endpoints (global and category-scoped) never return a record
of the wrong media type. -/
theorem random_endpoints_visible_and_typed
    (table : List MediaRow) (catParam : String) (pick : Nat) (r : MediaRow) :
    ((randomAny table pick).result = some r → r.visible = true) ∧
    ((randomImage table pick).result = some r →
      r.visible = true ∧ r.media_type = "image") ∧
    ((randomGif table pick).result = some r →
      r.visible = true ∧ r.media_type = "gif") ∧
    ((randomImageByCategory table catParam pick).result = some r →
      r.visible = true ∧ r.media_type = "image") ∧
    ((randomGifByCategory table catParam pick).result = some r →
      r.visible = true ∧ r.media_type = "gif") := by
  refine ⟨fun h => ?_, fun h => ?_, fun h => ?_, fun h => ?_, fun h => ?_⟩
  · unfold randomAny at h
    split at h
    · simp at h
    · next r' hr' =>
        simp only [Option.some.injEq] at h
        subst h
        simpa using (List.mem_filter.mp (randomPick_mem hr')).2
  · unfold randomImage randomByType at h
    split at h
    · simp at h
    · next r' hr' =>
        simp only [Option.some.injEq] at h
        subst h
        have := (List.mem_filter.mp (randomPick_mem hr')).2
        simp only [visibleOfType] at *
        simp only [Bool.and_eq_true, decide_eq_true_eq] at this
        exact ⟨this.2, this.1⟩
  · unfold randomGif randomByType at h
    split at h
    · simp at h
    · next r' hr' =>
        simp only [Option.some.injEq] at h
        subst h
        have := (List.mem_filter.mp (randomPick_mem hr')).2
        simp only [Bool.and_eq_true, decide_eq_true_eq] at this
        exact ⟨this.2, this.1⟩
  · unfold randomImageByCategory randomByTypeInCategory at h
    split at h
    · simp at h
    · next hcat =>
        split at h
        · simp at h
        · next r' hr' =>
            simp only [Option.some.injEq] at h
            subst h
            have := (List.mem_filter.mp (randomPick_mem hr')).2
            simp only [Bool.and_eq_true, decide_eq_true_eq] at this
            exact ⟨this.2, this.1.2⟩
  · unfold randomGifByCategory randomByTypeInCategory at h
    split at h
    · simp at h
    · next hcat =>
        split at h
        · simp at h
        · next r' hr' =>
            simp only [Option.some.injEq] at h
            subst h
            have := (List.mem_filter.mp (randomPick_mem hr')).2
            simp only [Bool.and_eq_true, decide_eq_true_eq] at this
            exact ⟨this.2, this.1.2⟩

/-- Witness for C9: concrete random requests on a concrete table, for
every endpoint variant. -/
theorem random_endpoints_visible_and_typed_witness :
    (sampleRow1.visible = true) ∧
    (sampleRow1.visible = true ∧ sampleRow1.media_type = "image") ∧
    (sampleGifRow.visible = true ∧ sampleGifRow.media_type = "gif") ∧
    (sampleRow1.visible = true ∧ sampleRow1.media_type = "image") ∧
    (sampleGifRow.visible = true ∧ sampleGifRow.media_type = "gif") := by
  refine ⟨(random_endpoints_visible_and_typed sampleTable "naruto" 0
      sampleRow1).1 (by decide),
    (random_endpoints_visible_and_typed sampleTable "naruto" 0
      sampleRow1).2.1 (by decide),
    (random_endpoints_visible_and_typed [sampleGifRow] "naruto" 0
      sampleGifRow).2.2.1 (by decide),
    (random_endpoints_visible_and_typed sampleTable "naruto" 0
      sampleRow1).2.2.2.1 (by decide),
    (random_endpoints_visible_and_typed [sampleGifRow] "naruto" 0
      sampleGifRow).2.2.2.2 (by decide)⟩

/-- C3: in bulk upload, a single title for `n > 1` files is replicated to
`n` titles with a 1-based index appended, and a single category is
replicated verbatim `n` times. -/
theorem bulk_replication_normalization (t c : String) (n : Nat)
    (hn : 1 < n) :
    (replicateTitles [t] n).length = n ∧
    (∀ i : Nat, i < n →
      (replicateTitles [t] n)[i]? = some (t ++ " " ++ toString (i + 1))) ∧
    replicateCategories [c] n = List.replicate n c := by
  refine ⟨?_, fun i hi => ?_, ?_⟩
  · simp [replicateTitles, hn]
  · simp [replicateTitles, hn, List.getElem?_map, List.getElem?_range, hi]
  · simp [replicateCategories, hn]

/-- Witness for C3: three files, one title "Title", one category
"naruto". -/
theorem bulk_replication_normalization_witness :
    (1 : Nat) < 3 ∧
    (replicateTitles ["Title"] 3).length = 3 ∧
    (replicateTitles ["Title"] 3)[1]? = some "Title 2" ∧
    replicateCategories ["naruto"] 3 = List.replicate 3 "naruto" := by
  refine ⟨by decide,
    (bulk_replication_normalization "Title" "naruto" 3 (by decide)).1, ?_,
    (bulk_replication_normalization "Title" "naruto" 3 (by decide)).2.2⟩
  rw [(bulk_replication_normalization "Title" "naruto" 3 (by decide)).2.1 1
    (by decide)]
  decide

/-- Length of a `LIMIT`/`OFFSET` page taken from a sorted row set. -/
theorem sortedPage_length (l : List MediaRow) (r : MediaRow → MediaRow → Prop)
    [DecidableRel r] (off lim : Nat) :
    (((List.insertionSort r l).drop off).take lim).length
      = min lim (l.length - off) := by
  simp [List.length_take, List.length_drop, List.length_insertionSort]

/-- The list-by-type endpoints return `min(limit, total − offset)` rows. -/
theorem listByType_returned (table : List MediaRow) (mt : String)
    (lp op : Option String) :
    (listByType table mt lp op).returned
      = min (getLimit lp).toNat
          ((visibleOfType mt table).length - (getOffset op).toNat) := by
  have hlen := sortedPage_length (visibleOfType mt table) createdDesc
    (getOffset op).toNat (getLimit lp).toNat
  simp only [listByType]
  split
  · next h0 =>
      have : (0 : Nat) = min (getLimit lp).toNat
          ((visibleOfType mt table).length - (getOffset op).toNat) := by omega
      exact this
  · exact hlen

/-- When the offset is at or beyond the total, the list-by-type endpoints
return zero rows with status 404. -/
theorem listByType_offset_beyond (table : List MediaRow) (mt : String)
    (lp op : Option String)
    (h : (visibleOfType mt table).length ≤ (getOffset op).toNat) :
    (listByType table mt lp op).returned = 0 ∧
      (listByType table mt lp op).status = 404 := by
  have hlen := sortedPage_length (visibleOfType mt table) createdDesc
    (getOffset op).toNat (getLimit lp).toNat
  have h0 : (((List.insertionSort createdDesc (visibleOfType mt table)).drop
      (getOffset op).toNat).take (getLimit lp).toNat).length = 0 := by omega
  constructor <;> simp only [listByType] <;> rw [if_pos h0]

/-- The by-category endpoints return `min(limit, total − offset)` rows
when the category validates. -/
theorem byCategory_returned (table : List MediaRow) (mt : String)
    (catParam cat : String) (lp op : Option String)
    (hv : validateCategory catParam = Except.ok cat) :
    (byCategory table mt catParam lp op).returned
      = min (getLimit lp).toNat
          ((visibleOfTypeInCategory mt cat table).length
            - (getOffset op).toNat) := by
  have hlen := sortedPage_length (visibleOfTypeInCategory mt cat table)
    createdDesc (getOffset op).toNat (getLimit lp).toNat
  simp only [byCategory, hv]
  split
  · next h0 =>
      have : (0 : Nat) = min (getLimit lp).toNat
          ((visibleOfTypeInCategory mt cat table).length
            - (getOffset op).toNat) := by omega
      exact this
  · exact hlen

/-- When the offset is at or beyond the total, the by-category endpoints
return zero rows with status 404. -/
theorem byCategory_offset_beyond (table : List MediaRow) (mt : String)
    (catParam cat : String) (lp op : Option String)
    (hv : validateCategory catParam = Except.ok cat)
    (h : (visibleOfTypeInCategory mt cat table).length
          ≤ (getOffset op).toNat) :
    (byCategory table mt catParam lp op).returned = 0 ∧
      (byCategory table mt catParam lp op).status = 404 := by
  have hlen := sortedPage_length (visibleOfTypeInCategory mt cat table)
    createdDesc (getOffset op).toNat (getLimit lp).toNat
  have h0 : (((List.insertionSort createdDesc
      (visibleOfTypeInCategory mt cat table)).drop
      (getOffset op).toNat).take (getLimit lp).toNat).length = 0 := by omega
  constructor <;> simp only [byCategory, hv] <;> rw [if_pos h0]

/-- The search endpoints return `min(min(limit,100), total − offset)` rows
when the query validates. -/
theorem searchByType_returned (table : List MediaRow) (mt : String)
    (qp : Option String) (q : String) (lp op : Option String)
    (hq : validateSearchQuery qp = Except.ok q) :
    (searchByType table mt qp lp op).returned
      = min (min (getLimit lp) SEARCH_LIMIT).toNat
          ((searchMatches table mt q).length - (getOffset op).toNat) := by
  have hlen := sortedPage_length (searchMatches table mt q) viewsDesc
    (getOffset op).toNat (min (getLimit lp) SEARCH_LIMIT).toNat
  simp only [searchByType, hq]
  split
  · next h0 =>
      have : (0 : Nat) = min (min (getLimit lp) SEARCH_LIMIT).toNat
          ((searchMatches table mt q).length - (getOffset op).toNat) := by
        omega
      exact this
  · exact hlen

/-- When the offset is at or beyond the total, the search endpoints
return zero rows with status 404. -/
theorem searchByType_offset_beyond (table : List MediaRow) (mt : String)
    (qp : Option String) (q : String) (lp op : Option String)
    (hq : validateSearchQuery qp = Except.ok q)
    (h : (searchMatches table mt q).length ≤ (getOffset op).toNat) :
    (searchByType table mt qp lp op).returned = 0 ∧
      (searchByType table mt qp lp op).status = 404 := by
  have hlen := sortedPage_length (searchMatches table mt q) viewsDesc
    (getOffset op).toNat (min (getLimit lp) SEARCH_LIMIT).toNat
  have h0 : (((List.insertionSort viewsDesc (searchMatches table mt q)).drop
      (getOffset op).toNat).take
      (min (getLimit lp) SEARCH_LIMIT).toNat).length = 0 := by omega
  constructor <;> simp only [searchByType, hq] <;> rw [if_pos h0]

/-- C1 counterexample: with two visible image rows, default limit (50)
and offset 1, the endpoint returns 1 row, not
`min(total_matching, limit) = 2` — the claimed formula ignores the
offset. -/
theorem pagination_min_formula_cex :
    ¬ ((listByType sampleTable "image" none (some "1")).returned
        = min (visibleOfType "image" sampleTable).length
            (getLimit none).toNat) := by
  decide

/-- C1 amended: for the list, by-category and search endpoints, the
number of rows returned equals `min(effective_limit, total_matching −
offset)` (the effective limit being `min(limit,100)` for search), and an
offset at or beyond the total matching count yields `returned == 0` with
status 404. -/
theorem pagination_returned_amended (table : List MediaRow) (mt : String)
    (lp op : Option String) :
    ((listByType table mt lp op).returned
        = min (getLimit lp).toNat
            ((visibleOfType mt table).length - (getOffset op).toNat) ∧
      ((visibleOfType mt table).length ≤ (getOffset op).toNat →
        (listByType table mt lp op).returned = 0 ∧
          (listByType table mt lp op).status = 404)) ∧
    (∀ catParam cat : String, validateCategory catParam = Except.ok cat →
      (byCategory table mt catParam lp op).returned
          = min (getLimit lp).toNat
              ((visibleOfTypeInCategory mt cat table).length
                - (getOffset op).toNat) ∧
        ((visibleOfTypeInCategory mt cat table).length
            ≤ (getOffset op).toNat →
          (byCategory table mt catParam lp op).returned = 0 ∧
            (byCategory table mt catParam lp op).status = 404)) ∧
    (∀ (qp : Option String) (q : String),
      validateSearchQuery qp = Except.ok q →
      (searchByType table mt qp lp op).returned
          = min (min (getLimit lp) SEARCH_LIMIT).toNat
              ((searchMatches table mt q).length - (getOffset op).toNat) ∧
        ((searchMatches table mt q).length ≤ (getOffset op).toNat →
          (searchByType table mt qp lp op).returned = 0 ∧
            (searchByType table mt qp lp op).status = 404)) := by
  refine ⟨⟨listByType_returned table mt lp op,
      fun h => listByType_offset_beyond table mt lp op h⟩,
    fun catParam cat hv => ⟨byCategory_returned table mt catParam cat lp op hv,
      fun h => byCategory_offset_beyond table mt catParam cat lp op hv h⟩,
    fun qp q hq => ⟨searchByType_returned table mt qp q lp op hq,
      fun h => searchByType_offset_beyond table mt qp q lp op hq h⟩⟩

/-- Witness for the amended C1: a two-row image table with offset 1
returns one row on each endpoint family, and offset 5 (beyond the total
of 2) returns zero rows with 404. -/
theorem pagination_returned_amended_witness :
    (listByType sampleTable "image" none (some "1")).returned = 1 ∧
    validateCategory "naruto" = Except.ok "naruto" ∧
    (byCategory sampleTable "image" "naruto" none (some "1")).returned = 1 ∧
    validateSearchQuery (some "t") = Except.ok "t" ∧
    (searchByType sampleTable "image" (some "t") none (some "1")).returned
      = 1 ∧
    (visibleOfType "image" sampleTable).length
      ≤ (getOffset (some "5")).toNat ∧
    (listByType sampleTable "image" none (some "5")).returned = 0 ∧
    (listByType sampleTable "image" none (some "5")).status = 404 := by
  have hl := (pagination_returned_amended sampleTable "image" none
    (some "1")).1.1
  have hc := ((pagination_returned_amended sampleTable "image" none
    (some "1")).2.1 "naruto" "naruto" (by decide)).1
  have hs := ((pagination_returned_amended sampleTable "image" none
    (some "1")).2.2 (some "t") "t" (by decide)).1
  have hb := (pagination_returned_amended sampleTable "image" none
    (some "5")).1.2 (by decide)
  exact ⟨by rw [hl]; decide, by decide, by rw [hc]; decide, by decide,
    by rw [hs]; decide, by decide, hb.1, hb.2⟩

/-- C7: the effective search page size never exceeds 100 (even for
requested limits in (100, 200]), and a successful (200) search response
reports the total count of rows matching the query. -/
theorem search_limit_capped (table : List MediaRow) (mt : String)
    (qp lp op : Option String) :
    (searchByType table mt qp lp op).returned ≤ 100 ∧
    (searchByType table mt qp lp op).limit ≤ 100 ∧
    (∀ q : String, validateSearchQuery qp = Except.ok q →
      (searchByType table mt qp lp op).status = 200 →
      (searchByType table mt qp lp op).total
        = (searchMatches table mt q).length) := by
  refine ⟨?_, ?_, fun q hq hs => ?_⟩
  · cases hv : validateSearchQuery qp with
    | error e =>
        simp only [searchByType, hv]
        omega
    | ok q =>
        have hret := searchByType_returned table mt qp q lp op hv
        have hcap : min (getLimit lp) SEARCH_LIMIT ≤ 100 := by
          simp only [SEARCH_LIMIT]
          omega
        simp only [SEARCH_LIMIT] at hret
        omega
  · cases hv : validateSearchQuery qp with
    | error e =>
        simp only [searchByType, hv]
        omega
    | ok q =>
        simp only [searchByType, hv, SEARCH_LIMIT]
        split
        all_goals
          show min (getLimit lp) 100 ≤ 100
          omega
  · have hret := searchByType_returned table mt qp q lp op hq
    simp only [searchByType, hq] at hs ⊢
    split at hs
    · next h0 => simp at hs
    · next h0 =>
        split
        · next h1 => exact absurd h1 h0
        · rfl

/-- Witness for C7: a requested limit of 150 (within the general 200 cap)
is reduced to 100 on search, and the 200 response carries the match
count. -/
theorem search_limit_capped_witness :
    (searchByType sampleTable "image" (some "t") (some "150") none).returned
      ≤ 100 ∧
    (searchByType sampleTable "image" (some "t") (some "150") none).limit
      ≤ 100 ∧
    validateSearchQuery (some "t") = Except.ok "t" ∧
    (searchByType sampleTable "image" (some "t") (some "150") none).status
      = 200 ∧
    (searchByType sampleTable "image" (some "t") (some "150") none).total
      = (searchMatches sampleTable "image" "t").length := by
  refine ⟨(search_limit_capped sampleTable "image" (some "t") (some "150")
      none).1,
    (search_limit_capped sampleTable "image" (some "t") (some "150")
      none).2.1,
    by decide, by decide,
    (search_limit_capped sampleTable "image" (some "t") (some "150")
      none).2.2 "t" (by decide) (by decide)⟩

/-- A decimal digit is not `parseInt`/`\s` whitespace. -/
theorem digit_not_space {c : Char} (h : c.isDigit = true) :
    jsIsSpace c = false := by
  by_contra hs
  rw [Bool.not_eq_false] at hs
  unfold jsIsSpace at hs
  simp only [Bool.or_eq_true, decide_eq_true_eq] at hs
  rcases hs with ((((rfl | rfl) | rfl) | rfl) | rfl) | rfl <;>
    exact absurd h (by decide)

/-- `parseInt` on a non-empty all-digit string returns its decimal
value. -/
theorem parseInt_digits (cs : List Char) (hne : cs ≠ [])
    (hd : cs.all Char.isDigit = true) :
    jsParseIntChars cs = some ((digitsVal cs : Nat) : Int) := by
  match cs, hne with
  | c :: rest, _ =>
    simp only [List.all_cons, Bool.and_eq_true] at hd
    obtain ⟨hc, hrest⟩ := hd
    have hun : parseIntUnsigned (c :: rest)
        = some (digitsVal (c :: rest)) := by
      have htake : (c :: rest).takeWhile Char.isDigit = c :: rest := by
        refine List.takeWhile_eq_self_iff.mpr ?_
        intro a ha
        rcases List.mem_cons.mp ha with rfl | ha
        · exact hc
        · exact List.all_eq_true.mp hrest a ha
      unfold parseIntUnsigned
      split
      · next heq =>
          injection heq with h1 h2
          subst h2
          simp only [List.all_cons, Bool.and_eq_true] at hrest
          exact absurd hrest.1 (by decide)
      · next heq =>
          injection heq with h1 h2
          subst h2
          simp only [List.all_cons, Bool.and_eq_true] at hrest
          exact absurd hrest.1 (by decide)
      · simp only [parseDigitRun, htake]
        simp
    unfold jsParseIntChars
    rw [List.dropWhile_cons]
    simp only [digit_not_space hc, Bool.false_eq_true, if_false]
    split
    · next heq =>
        injection heq with h1 h2
        subst h1
        exact absurd hc (by decide)
    · next heq =>
        injection heq with h1 h2
        subst h1
        exact absurd hc (by decide)
    · rw [hun]
      simp

/-- A parameter that is a plain decimal positive integer parses to its
(positive) value. -/
theorem specPosInt_parse {s : String} (h : specPosIntLiteral s = true) :
    jsParseIntChars s.data = some ((digitsVal s.data : Nat) : Int) ∧
      1 ≤ ((digitsVal s.data : Nat) : Int) := by
  unfold specPosIntLiteral at h
  simp only [Bool.and_eq_true, Bool.not_eq_true', decide_eq_true_eq] at h
  obtain ⟨⟨hne, hall⟩, hval⟩ := h
  have hne2 : s.data ≠ [] := by
    intro heq
    rw [heq] at hne
    simp at hne
  exact ⟨parseInt_digits s.data hne2 hall, by exact_mod_cast hval⟩

/-- C8 counterexample: the parameter "3abc" is not a positive integer,
yet the endpoint does not reject it with 400 (parseInt accepts the
leading digits, so an empty table yields 404, not 400). -/
theorem by_id_validation_cex :
    ¬ (((imageById [] "3abc").status = 400) ↔
        specPosIntLiteral "3abc" = false) := by
  decide

/-- C8 amended: the by-id endpoints reject with 400 exactly when
`parseInt` of the id parameter yields `NaN` or a value below 1 (so
parameters with trailing garbage such as "3abc" are accepted via their
numeric prefix); when `parseInt` yields `v ≥ 1`, the response carries the
single visible row of the matching type with id `v`, with 404 exactly
when no such row exists; in particular every plain decimal
positive-integer parameter passes validation. -/
theorem by_id_validation_amended (table : List MediaRow) (mt : String)
    (p : String) :
    ((byIdEndpoint table mt p).status = 400 ↔
      (jsParseIntChars p.data = none ∨
        ∃ v : Int, jsParseIntChars p.data = some v ∧ v < 1)) ∧
    (∀ v : Int, jsParseIntChars p.data = some v → 1 ≤ v →
      ((byIdEndpoint table mt p).result
          = table.find? (fun r =>
              (r.id : Int) = v && r.visible && r.media_type = mt) ∧
        ((byIdEndpoint table mt p).status = 404 ↔
          table.find? (fun r =>
              (r.id : Int) = v && r.visible && r.media_type = mt)
            = none))) ∧
    (specPosIntLiteral p = true → (byIdEndpoint table mt p).status ≠ 400) := by
  have hmain : ∀ v : Int, jsParseIntChars p.data = some v → 1 ≤ v →
      (byIdEndpoint table mt p).result
          = table.find? (fun r =>
              (r.id : Int) = v && r.visible && r.media_type = mt) ∧
        ((byIdEndpoint table mt p).status = 404 ↔
          table.find? (fun r =>
              (r.id : Int) = v && r.visible && r.media_type = mt) = none) ∧
        (byIdEndpoint table mt p).status ≠ 400 := by
    intro v hv h1
    have hnlt : ¬ v < 1 := by omega
    simp only [byIdEndpoint, hv, hnlt, if_false]
    cases hf : table.find? (fun r =>
        (r.id : Int) = v && r.visible && r.media_type = mt) with
    | none => exact ⟨rfl, by simp, by simp⟩
    | some r => exact ⟨rfl, by simp, by simp⟩
  refine ⟨?_, fun v hv h1 => ⟨(hmain v hv h1).1, (hmain v hv h1).2.1⟩,
    fun hp => ?_⟩
  · constructor
    · intro h400
      cases hv : jsParseIntChars p.data with
      | none => exact Or.inl rfl
      | some v =>
          by_cases h1 : v < 1
          · exact Or.inr ⟨v, rfl, h1⟩
          · exact absurd h400 (hmain v hv (by omega)).2.2
    · rintro (hnone | ⟨v, hv, h1⟩)
      · simp [byIdEndpoint, hnone]
      · simp [byIdEndpoint, hv, h1]
  · obtain ⟨hv, h1⟩ := specPosInt_parse hp
    exact (hmain _ hv h1).2.2

/-- Witness for the amended C8: the parameter "1" is accepted and fetches
the visible image row with id 1. -/
theorem by_id_validation_amended_witness :
    jsParseIntChars ("1" : String).data = some 1 ∧
    (1 : Int) ≤ 1 ∧
    (byIdEndpoint sampleTable "image" "1").result = some sampleRow1 ∧
    specPosIntLiteral "1" = true ∧
    (byIdEndpoint sampleTable "image" "1").status ≠ 400 := by
  have h := (by_id_validation_amended sampleTable "image" "1").2.1 1
    (by decide) (by decide)
  have h3 := (by_id_validation_amended sampleTable "image" "1").2.2
    (by decide)
  refine ⟨by decide, by decide, ?_, by decide, h3⟩
  rw [h.1]
  decide

theorem headD_eq_getD (l : List String) : l.headD "" = l.getD 0 "" := by
  cases l <;> rfl

theorem tail_getD_succ (l : List String) (j : Nat) :
    l.tail.getD j "" = l.getD (j + 1) "" := by
  cases l <;> rfl

theorem exceptOkPart_eq_some {ε α : Type} (g : Except ε α) (a : α) :
    exceptOkPart g = some a ↔ g = Except.ok a := by
  cases g <;> simp [exceptOkPart]

theorem exceptErrPart_eq_some {ε α : Type} (g : Except ε α) (e : ε) :
    exceptErrPart g = some e ↔ g = Except.error e := by
  cases g <;> simp [exceptErrPart]

/-- The bulk-upload loop state is exactly the per-index partition of
`processFile` outcomes: successes in order, errors in order, counts
matching. -/
theorem bulkLoop_spec (env : BulkEnv) (mt : String) :
    ∀ (fs : List UploadFile) (ts cs : List String) (idx : Nat),
      (bulkLoop env mt idx fs ts cs).uploaded
          = (List.range fs.length).filterMap (fun j =>
              exceptOkPart (processFile env mt (idx + j) (fs.getD j ⟨""⟩)
                (ts.getD j "") (cs.getD j ""))) ∧
      (bulkLoop env mt idx fs ts cs).errors
          = (List.range fs.length).filterMap (fun j =>
              exceptErrPart (processFile env mt (idx + j) (fs.getD j ⟨""⟩)
                (ts.getD j "") (cs.getD j ""))) ∧
      (bulkLoop env mt idx fs ts cs).successCount
          = (bulkLoop env mt idx fs ts cs).uploaded.length ∧
      (bulkLoop env mt idx fs ts cs).failedCount
          = (bulkLoop env mt idx fs ts cs).errors.length := by
  intro fs
  induction fs with
  | nil => exact fun ts cs idx => ⟨rfl, rfl, rfl, rfl⟩
  | cons f fs ih =>
      intro ts cs idx
      obtain ⟨ih1, ih2, ih3, ih4⟩ := ih ts.tail cs.tail (idx + 1)
      simp only [tail_getD_succ, Nat.succ_add] at ih1 ih2
      cases hpf : processFile env mt idx f (ts.getD 0 "") (cs.getD 0 "") with
      | ok item =>
          refine ⟨?_, ?_, ?_, ?_⟩
          · simp only [bulkLoop, headD_eq_getD, hpf]
            rw [ih1]
            simp only [List.length_cons]
            rw [List.range_succ_eq_map, List.filterMap_cons,
              List.filterMap_map]
            simp only [Nat.add_zero, List.getD_cons_zero, hpf, exceptOkPart]
            congr 1
          · simp only [bulkLoop, headD_eq_getD, hpf]
            rw [ih2]
            simp only [List.length_cons]
            rw [List.range_succ_eq_map, List.filterMap_cons,
              List.filterMap_map]
            simp only [Nat.add_zero, List.getD_cons_zero, hpf, exceptErrPart]
            congr 1
          · simp only [bulkLoop, headD_eq_getD, hpf]
            simp [ih3]
          · simp only [bulkLoop, headD_eq_getD, hpf]
            simp [ih4]
      | error e =>
          refine ⟨?_, ?_, ?_, ?_⟩
          · simp only [bulkLoop, headD_eq_getD, hpf]
            rw [ih1]
            simp only [List.length_cons]
            rw [List.range_succ_eq_map, List.filterMap_cons,
              List.filterMap_map]
            simp only [Nat.add_zero, List.getD_cons_zero, hpf, exceptOkPart]
            congr 1
          · simp only [bulkLoop, headD_eq_getD, hpf]
            rw [ih2]
            simp only [List.length_cons]
            rw [List.range_succ_eq_map, List.filterMap_cons,
              List.filterMap_map]
            simp only [Nat.add_zero, List.getD_cons_zero, hpf, exceptErrPart]
            congr 1
          · simp only [bulkLoop, headD_eq_getD, hpf]
            simp [ih3]
          · simp only [bulkLoop, headD_eq_getD, hpf]
            simp [ih4]

/-- Every error recorded by the per-file `catch` carries the file's
original filename and its batch index. -/
theorem processFile_error_fields (env : BulkEnv) (mt : String) (idx : Nat)
    (f : UploadFile) (t c : String) (e : UploadError)
    (h : processFile env mt idx f t c = Except.error e) :
    e.index = idx ∧ e.filename = f.originalname := by
  simp only [processFile] at h
  by_cases ht : (jsTrim t).data.length = 0
  · rw [if_pos ht] at h
    cases h
    exact ⟨rfl, rfl⟩
  · rw [if_neg ht] at h
    split at h
    · cases h
      exact ⟨rfl, rfl⟩
    · split at h
      · cases h
        exact ⟨rfl, rfl⟩
      · cases h
        exact ⟨rfl, rfl⟩
      · split at h
        · cases h
          exact ⟨rfl, rfl⟩
        · cases h

/-- Every successfully processed file yields a record inserted with
`views = 0` and `visible = true`. -/
theorem processFile_ok_media (env : BulkEnv) (mt : String) (idx : Nat)
    (f : UploadFile) (t c : String) (item : UploadedMediaItem)
    (h : processFile env mt idx f t c = Except.ok item) :
    item.media.views = 0 ∧ item.media.visible = true := by
  simp only [processFile] at h
  by_cases ht : (jsTrim t).data.length = 0
  · rw [if_pos ht] at h
    cases h
  · rw [if_neg ht] at h
    split at h
    · cases h
    · split at h
      · cases h
      · cases h
      · split at h
        · cases h
        · cases h
          exact ⟨rfl, rfl⟩

/-- For every index exactly one of the ok/error projections is kept, so
the two filterMaps partition the index range. -/
theorem okErr_partition (n : Nat)
    (g : Nat → Except UploadError UploadedMediaItem) :
    ((List.range n).filterMap (fun j => exceptOkPart (g j))).length
      + ((List.range n).filterMap (fun j => exceptErrPart (g j))).length
      = n := by
  induction n with
  | zero => rfl
  | succ n ih =>
      rw [List.range_succ]
      simp only [List.filterMap_append, List.length_append]
      cases hg : g n <;>
        simp [exceptOkPart, exceptErrPart, hg] at ih ⊢ <;> omega

/-- C4: for every bulk-upload batch that passes pre-batch validation the
response status is 200 even when some files fail; success + failed equals
the file count; the successes and errors are exactly the per-index
partition of the per-file outcomes (so each file appears in exactly one
of `uploaded_media`/`errors` and one file's failure never stops the
rest); and each error carries the file's original filename, its batch
index, and the failure message. -/
theorem bulk_upload_partial_failure_isolation
    (env : BulkEnv) (files : List UploadFile)
    (titles0 categories0 : List String) (mt : String)
    (hmt : mt = "image" ∨ mt = "gif")
    (hne : files.length ≠ 0)
    (ht : (replicateTitles titles0 files.length).length = files.length)
    (hc : (replicateCategories categories0 files.length).length
            = files.length) :
    (bulkUpload env true files titles0 categories0 (some mt)).status
        = 200 ∧
    (bulkUpload env true files titles0 categories0 (some mt)).success
        + (bulkUpload env true files titles0 categories0 (some mt)).failed
      = files.length ∧
    (bulkUpload env true files titles0 categories0
        (some mt)).uploaded_media.length
      = (bulkUpload env true files titles0 categories0 (some mt)).success ∧
    (bulkUpload env true files titles0 categories0 (some mt)).errors.length
      = (bulkUpload env true files titles0 categories0 (some mt)).failed ∧
    (bulkUpload env true files titles0 categories0 (some mt)).uploaded_media
        = (List.range files.length).filterMap (fun j =>
            exceptOkPart (processFile env mt j (files.getD j ⟨""⟩)
              ((replicateTitles titles0 files.length).getD j "")
              ((replicateCategories categories0 files.length).getD j ""))) ∧
    (bulkUpload env true files titles0 categories0 (some mt)).errors
        = (List.range files.length).filterMap (fun j =>
            exceptErrPart (processFile env mt j (files.getD j ⟨""⟩)
              ((replicateTitles titles0 files.length).getD j "")
              ((replicateCategories categories0 files.length).getD j ""))) ∧
    (∀ e ∈ (bulkUpload env true files titles0 categories0 (some mt)).errors,
      e.index < files.length ∧
        e.filename = (files.getD e.index ⟨""⟩).originalname ∧
        processFile env mt e.index (files.getD e.index ⟨""⟩)
            ((replicateTitles titles0 files.length).getD e.index "")
            ((replicateCategories categories0 files.length).getD e.index "")
          = Except.error e) := by
  have hred : bulkUpload env true files titles0 categories0 (some mt)
      = { status := 200,
          success := (bulkLoop env mt 0 files
            (replicateTitles titles0 files.length)
            (replicateCategories categories0 files.length)).successCount,
          failed := (bulkLoop env mt 0 files
            (replicateTitles titles0 files.length)
            (replicateCategories categories0 files.length)).failedCount,
          uploaded_media := (bulkLoop env mt 0 files
            (replicateTitles titles0 files.length)
            (replicateCategories categories0 files.length)).uploaded,
          errors := (bulkLoop env mt 0 files
            (replicateTitles titles0 files.length)
            (replicateCategories categories0 files.length)).errors } := by
    simp only [bulkUpload]
    rw [if_neg (by simp)]
    rw [if_neg hne]
    rw [if_neg (fun hcon => hcon ht)]
    rw [if_neg (fun hcon => hcon hc)]
    rw [if_neg (by rcases hmt with rfl | rfl <;> simp)]
    rfl
  obtain ⟨hs1, hs2, hs3, hs4⟩ := bulkLoop_spec env mt files
    (replicateTitles titles0 files.length)
    (replicateCategories categories0 files.length) 0
  simp only [Nat.zero_add] at hs1 hs2
  refine ⟨by rw [hred], ?_, ?_, ?_, ?_, ?_, ?_⟩
  · rw [hred]
    show (bulkLoop env mt 0 files (replicateTitles titles0 files.length)
        (replicateCategories categories0 files.length)).successCount
      + (bulkLoop env mt 0 files (replicateTitles titles0 files.length)
        (replicateCategories categories0 files.length)).failedCount
      = files.length
    rw [hs3, hs4, hs1, hs2]
    exact okErr_partition files.length (fun j =>
      processFile env mt j (files.getD j ⟨""⟩)
        ((replicateTitles titles0 files.length).getD j "")
        ((replicateCategories categories0 files.length).getD j ""))
  · rw [hred]
    exact hs3.symm
  · rw [hred]
    exact hs4.symm
  · rw [hred]
    exact hs1
  · rw [hred]
    exact hs2
  · intro e he
    rw [hred] at he
    replace he : e ∈ (bulkLoop env mt 0 files
        (replicateTitles titles0 files.length)
        (replicateCategories categories0 files.length)).errors := he
    rw [hs2] at he
    obtain ⟨j, hj, hje⟩ := List.mem_filterMap.mp he
    have hj2 := List.mem_range.mp hj
    have hpe := (exceptErrPart_eq_some _ _).mp hje
    obtain ⟨hidx, hfn⟩ := processFile_error_fields env mt j
      (files.getD j ⟨""⟩)
      ((replicateTitles titles0 files.length).getD j "")
      ((replicateCategories categories0 files.length).getD j "") e hpe
    subst hidx
    exact ⟨hj2, hfn, hpe⟩

/-- Witness for C4: three files with one title and one category, where
the CDN upload of the file at index 1 fails: the batch still responds
200 with success 2, failed 1. -/
theorem bulk_upload_partial_failure_isolation_witness :
    sampleFiles.length ≠ 0 ∧
    (replicateTitles ["T"] sampleFiles.length).length
      = sampleFiles.length ∧
    (replicateCategories ["naruto"] sampleFiles.length).length
      = sampleFiles.length ∧
    (bulkUpload sampleEnv true sampleFiles ["T"] ["naruto"]
        (some "image")).status = 200 ∧
    (bulkUpload sampleEnv true sampleFiles ["T"] ["naruto"]
        (some "image")).success
      + (bulkUpload sampleEnv true sampleFiles ["T"] ["naruto"]
        (some "image")).failed = 3 ∧
    (bulkUpload sampleEnv true sampleFiles ["T"] ["naruto"]
        (some "image")).success = 2 ∧
    (bulkUpload sampleEnv true sampleFiles ["T"] ["naruto"]
        (some "image")).failed = 1 := by
  have h := bulk_upload_partial_failure_isolation sampleEnv sampleFiles
    ["T"] ["naruto"] "image" (Or.inl rfl) (by decide) (by decide) (by decide)
  exact ⟨by decide, by decide, by decide, h.1,
    h.2.1.trans (by decide), by decide, by decide⟩

/-- C10: every media record carried by a bulk-upload success entry has
`views = 0` and `visible = true` — the insert statement sets both
explicitly, independent of column defaults. -/
theorem bulk_insert_views_visible (env : BulkEnv) (cfg : Bool)
    (files : List UploadFile) (titles0 categories0 : List String)
    (mtOpt : Option String) (item : UploadedMediaItem)
    (h : item ∈ (bulkUpload env cfg files titles0 categories0
        mtOpt).uploaded_media) :
    item.media.views = 0 ∧ item.media.visible = true := by
  simp only [bulkUpload] at h
  split at h
  · simp at h
  · split at h
    · simp at h
    · split at h
      · simp at h
      · split at h
        · simp at h
        · split at h
          · simp at h
          · obtain ⟨hs1, _, _, _⟩ := bulkLoop_spec env (mtOpt.getD "") files
              (replicateTitles titles0 files.length)
              (replicateCategories categories0 files.length) 0
            simp only [Nat.zero_add] at hs1
            replace h : item ∈ (bulkLoop env (mtOpt.getD "") 0 files
                (replicateTitles titles0 files.length)
                (replicateCategories categories0
                  files.length)).uploaded := h
            rw [hs1] at h
            obtain ⟨j, hj, hje⟩ := List.mem_filterMap.mp h
            exact processFile_ok_media _ _ _ _ _ _ _
              ((exceptOkPart_eq_some _ _).mp hje)

/-- Witness for C10: the first uploaded item of the concrete batch has a
media record with zero views, visible. -/
theorem bulk_insert_views_visible_witness :
    ({ filename := "a.png", title := "T 1", category := "naruto",
       media := { id := 1, title := "T 1", category := "naruto",
                  url := "https://cdn.example/x.png",
                  media_type := "image", views := 0, visible := true } }
        : UploadedMediaItem)
      ∈ (bulkUpload sampleEnv true sampleFiles ["T"] ["naruto"]
          (some "image")).uploaded_media ∧
    ({ filename := "a.png", title := "T 1", category := "naruto",
       media := { id := 1, title := "T 1", category := "naruto",
                  url := "https://cdn.example/x.png",
                  media_type := "image", views := 0, visible := true } }
        : UploadedMediaItem).media.views = 0 ∧
    ({ filename := "a.png", title := "T 1", category := "naruto",
       media := { id := 1, title := "T 1", category := "naruto",
                  url := "https://cdn.example/x.png",
                  media_type := "image", views := 0, visible := true } }
        : UploadedMediaItem).media.visible = true := by
  refine ⟨by decide, ?_, ?_⟩
  · exact (bulk_insert_views_visible sampleEnv true sampleFiles ["T"]
      ["naruto"] (some "image") _ (by decide)).1
  · exact (bulk_insert_views_visible sampleEnv true sampleFiles ["T"]
      ["naruto"] (some "image") _ (by decide)).2
